import Mathlib

/-!
Verification of the yogonet-scrapper adaptive extraction pipeline.

Shallow embedding of the Python sources:
  src/modules/scrapper.py        (YogonetScraper.scrape_articles)
  src/modules/ai_selector.py     (AiSelector.get_selectors)
  src/modules/named_entity.py    (NamedEntityExtractor.extract_entities)
  src/modules/post_processing.py (ArticlePostProcessor metric functions)
  src/modules/bigquery_writer.py (BigQueryWriter.write_articles, row shape)
  src/main.py                    (main orchestration)

Python strings are embedded as List Char. The ASCII character classes of
the regexes involved ([A-Z], [a-z], Python \w and \s restricted to their
ASCII fragments) are embedded with Lean Char predicates.
-/

/-- Characters of a Lean string literal, used to transcribe Python string
literals into the List Char embedding. -/
def strL (s : String) : List Char := s.data

/-- ASCII fragment of Python regex class backslash-s (whitespace). -/
def isSpaceChar (c : Char) : Bool :=
  c = ' ' || c = '\t' || c = '\n' || c = '\x0d' || c = '\x0b' || c = '\x0c'

/-- ASCII fragment of Python regex class backslash-w (word character:
alphanumeric or underscore). -/
def isWordChar (c : Char) : Bool := c.isAlphanum || c = '_'

/-- Python str.strip: drop leading and trailing whitespace. -/
def pyStrip (l : List Char) : List Char :=
  ((l.dropWhile isSpaceChar).reverse.dropWhile isSpaceChar).reverse

/-- Helper for pySplit: acc holds the characters of the current word,
reversed. -/
def pySplitGo (acc : List Char) : List Char → List (List Char)
  | [] => if acc = [] then [] else [acc.reverse]
  | c :: rest =>
    if isSpaceChar c then
      if acc = [] then pySplitGo [] rest else acc.reverse :: pySplitGo [] rest
    else pySplitGo (c :: acc) rest

/-- Python str.split() with no argument: maximal runs of non-whitespace. -/
def pySplit (l : List Char) : List (List Char) := pySplitGo [] l

/-- Helper for pyDedup: skip elements already seen. -/
def pyDedupGo [DecidableEq α] (seen : List α) : List α → List α
  | [] => []
  | a :: l => if a ∈ seen then pyDedupGo seen l else a :: pyDedupGo (a :: seen) l

/-- Python list(dict.fromkeys(l)): remove duplicates keeping the first
occurrence of each element, preserving order. -/
def pyDedup [DecidableEq α] (l : List α) : List α := pyDedupGo [] l

/-- Position of the first occurrence of an element in a list (length of the
list when absent). -/
def firstIdx [DecidableEq α] : List α → α → Nat
  | [], _ => 0
  | b :: l, a => if b = a then 0 else firstIdx l a + 1

/- ===== src/modules/scrapper.py : YogonetScraper.scrape_articles ===== -/

/-- A DOM element as the scraper observes it: its (already extracted) text
and its href / src attributes when present. -/
structure Elem where
  text : List Char
  href : Option (List Char)
  src : Option (List Char)
deriving DecidableEq

/-- One candidate article container: the results of the select_one queries
for each role inside the container, plus the fecha_actual date div. -/
structure Candidate where
  title : Option Elem
  kicker : Option Elem
  link : Option Elem
  image : Option Elem
  date : Option Elem
deriving DecidableEq

/-- A scraped article dict as built in scrape_articles. -/
structure Article where
  title : List Char
  kicker : List Char
  link : List Char
  image : List Char
  date : List Char
deriving DecidableEq

/-- Fixed site origin used for URL normalization in scrape_articles. -/
def siteOrigin : List Char :=
  ['h','t','t','p','s',':','/','/','w','w','w','.','y','o','g','o','n','e','t','.','c','o','m']

/-- URL normalization from scrape_articles: `if article[k] and
article[k].startswith('/'): article[k] = "https://www.yogonet.com" + article[k]`.
The truthiness test makes the empty string pass through unchanged. -/
def normalizeUrl (u : List Char) : List Char :=
  if u ≠ [] ∧ ['/'].isPrefixOf u then siteOrigin ++ u else u

/-- Per-candidate extraction from scrape_articles: a record is built only
when both title_elem and link_elem resolve; kicker defaults to the sentinel
"No kicker", image src to the empty string, date to "No date"; link and
image are then URL-normalized. -/
def extractArticle (c : Candidate) : Option Article :=
  match c.title, c.link with
  | some t, some l =>
    some { title := pyStrip t.text
         , kicker := match c.kicker with
                     | some k => pyStrip k.text
                     | none => strL "No kicker"
         , link := normalizeUrl (l.href.getD [])
         , image := normalizeUrl (match c.image with
                                  | some i => i.src.getD []
                                  | none => [])
         , date := match c.date with
                   | some d => pyStrip d.text
                   | none => strL "No date" }
  | _, _ => none

/-- scrape_articles over the containers matching the container rule:
Python slice containers[:limit] followed by the per-candidate loop; failed
candidates are skipped, document order is preserved. -/
def scrape_articles (limit : Option Nat) (cs : List Candidate) : List Article :=
  (match limit with
   | none => cs
   | some n => cs.take n).filterMap extractArticle

/- ===== sanity examples (extraction) ===== -/

def candFull : Candidate :=
  { title := some ⟨strL "Title", none, none⟩
  , kicker := some ⟨strL "Kick", none, none⟩
  , link := some ⟨[], some (strL "/international/news/123"), none⟩
  , image := some ⟨[], none, some (strL "/img.png")⟩
  , date := none }

def candNoLink : Candidate :=
  { title := some ⟨strL "Title", none, none⟩
  , kicker := none, link := none, image := none, date := none }

def candNoKicker : Candidate :=
  { title := some ⟨strL "Title", none, none⟩
  , kicker := none
  , link := some ⟨[], some (strL "https://x.example/a"), none⟩
  , image := none, date := none }

def candNoHref : Candidate :=
  { title := some ⟨strL "Title", none, none⟩
  , kicker := none
  , link := some ⟨strL "anchor text", none, none⟩
  , image := none, date := none }

example : extractArticle candNoLink = none := by decide
example : (extractArticle candFull).map Article.link
    = some (strL "https://www.yogonet.com/international/news/123") := by decide

/- ===== src/modules/post_processing.py : ArticlePostProcessor ===== -/

/-- ASCII class [a-z] of the capitalized-word regex. -/
def isLowerAZ (c : Char) : Bool := 'a' ≤ c ∧ c ≤ 'z'

/-- ASCII class [A-Z] of the capitalized-word regex. -/
def isUpperAZ (c : Char) : Bool := 'A' ≤ c ∧ c ≤ 'Z'

/-- Closing word boundary of the regex: holds at the end of input or before
a non-word character. -/
def wordBoundaryEnd : List Char → Bool
  | [] => true
  | d :: _ => !isWordChar d

/-- Scanner for re.findall of the pattern backslash-b [A-Z][a-z]* backslash-b.
The flag prev records whether the previous character is a word character
(false at the start of input). A match starts where prev is false (opening
boundary) at an uppercase letter, takes the maximal run of lowercase
letters, and is kept only when the closing boundary holds after that run;
greedy backtracking over [a-z]* can never repair a failed closing boundary
because every shorter run still ends between two word characters, so a
failed candidate yields no match at that position at all. Scanning always
advances one character; no new match can start inside a kept match since
its interior is lowercase. -/
def findCapsAux : Bool → List Char → List (List Char)
  | _, [] => []
  | prev, c :: rest =>
    if !prev && isUpperAZ c then
      if wordBoundaryEnd (rest.dropWhile isLowerAZ) then
        (c :: rest.takeWhile isLowerAZ) :: findCapsAux true rest
      else findCapsAux true rest
    else findCapsAux (isWordChar c) rest

/-- _find_capitalized_words from post_processing.py:
re.findall of backslash-b [A-Z][a-z]* backslash-b over the text. -/
def find_capitalized_words (text : List Char) : List (List Char) :=
  findCapsAux false text

/-- _count_words from post_processing.py: len(text.split()). -/
def count_words (text : List Char) : Nat := (pySplit text).length

/-- Count of characters matching the regex class
[caret backslash-w backslash-s]: neither word characters nor whitespace. -/
def specialCount (text : List Char) : Nat :=
  text.countP (fun c => !isWordChar c && !isSpaceChar c)

/-- Python round(x, 2) embedded on rationals. In
_calculate_complexity_score the argument is always an integer multiple of
1/2, on which every rounding convention is the identity, so the half-up
convention used here is faithful on all reachable inputs. -/
def pyRound2 (q : ℚ) : ℚ := (round (q * 100) : ℚ) / 100

/-- _calculate_complexity_score from post_processing.py:
round(word_count * 0.5 + capitalized_count * 1.5 + special_chars * 2, 2). -/
def calculate_complexity_score (text : List Char) : ℚ :=
  pyRound2 ((count_words text : ℚ) * (1/2)
    + ((find_capitalized_words text).length : ℚ) * (3/2)
    + (specialCount text : ℚ) * 2)

/-- Modelled from the spec (claim C6's wording): special characters are the
characters that are neither alphanumeric nor whitespace — unlike the code,
this counts the underscore. -/
def specialCountClaimed (text : List Char) : Nat :=
  text.countP (fun c => !c.isAlphanum && !isSpaceChar c)

/-- Complexity score as claim C6 words it, using specialCountClaimed. -/
def complexityScoreClaimed (text : List Char) : ℚ :=
  pyRound2 ((count_words text : ℚ) * (1/2)
    + ((find_capitalized_words text).length : ℚ) * (3/2)
    + (specialCountClaimed text : ℚ) * 2)

example : find_capitalized_words (strL "Google Announces New AI Features")
    = [strL "Google", strL "Announces", strL "New", strL "Features"] := by decide
example : count_words (strL "a  bc ") = 2 := by decide
example : specialCount (strL "a_b!") = 1 := by decide
example : specialCountClaimed (strL "a_b!") = 2 := by decide

/- ===== src/modules/ai_selector.py : AiSelector.get_selectors ===== -/

/-- A JSON value inside the parsed remote response: a string, or anything
else (isinstance(v, str) is all the validation inspects). -/
inductive JVal where
  | str : List Char → JVal
  | other : JVal
deriving DecidableEq

/-- A parsed JSON mapping (json.loads result), as an association list. -/
abbrev JObj := List (List Char × JVal)

/-- Dict lookup (selectors[key] with the `key in selectors` test). -/
def jlookup (k : List Char) : JObj → Option JVal
  | [] => none
  | (k2, v) :: rest => if k2 = k then some v else jlookup k rest

/-- The five required selector roles validated by get_selectors. -/
def requiredRoles : List (List Char) :=
  [strL "article_container", strL "title", strL "kicker", strL "link", strL "image"]

/-- The built-in default selectors of AiSelector. -/
def defaultSelectors : JObj :=
  [ (strL "article_container", .str (strL ".contenedor_dato_modulo"))
  , (strL "title", .str (strL ".titulo"))
  , (strL "kicker", .str (strL ".volanta"))
  , (strL "link", .str (strL "a"))
  , (strL "image", .str (strL "img")) ]

/-- Validation loop of get_selectors: every required role must be present
and be a string (emptiness is not checked). -/
def validateSelectors (obj : JObj) : Bool :=
  requiredRoles.all (fun k =>
    match jlookup k obj with
    | some (.str _) => true
    | _ => false)

/-- Outcome of the remote model call: the API call raised, or returned a
payload that either fails to parse as a JSON mapping (json.loads raises,
or the JSON is not an object) or parses to a mapping. -/
inductive RemoteOutcome where
  | raised : RemoteOutcome
  | content : Option JObj → RemoteOutcome

/-- The page markup as the pipeline observes it: the result of
select_one for the default container rule .contenedor_dato_modulo (the
representative sample article fragment), and the candidate containers the
extraction loop iterates over. -/
structure Html where
  sampleArticle : Option (List Char)
  candidates : List Candidate

/-- get_selectors from ai_selector.py. The client is None when the OpenAI
library or key is unavailable; otherwise it maps the sample fragment to a
RemoteOutcome. The second component records whether the remote call was
attempted. -/
def get_selectors (client : Option (List Char → RemoteOutcome)) (html : Html) :
    JObj × Bool :=
  match client with
  | none => (defaultSelectors, false)
  | some query =>
    match html.sampleArticle with
    | none => (defaultSelectors, false)
    | some frag =>
      match query frag with
      | .raised => (defaultSelectors, true)
      | .content none => (defaultSelectors, true)
      | .content (some obj) =>
        (if validateSelectors obj then obj else defaultSelectors, true)

/-- A remote response carrying all five roles as strings, one of them the
empty string. -/
def emptyRoleObj : JObj :=
  [ (strL "article_container", .str [])
  , (strL "title", .str (strL ".titulo"))
  , (strL "kicker", .str (strL ".volanta"))
  , (strL "link", .str (strL "a"))
  , (strL "image", .str (strL "img")) ]

example : validateSelectors emptyRoleObj = true := by decide
example : validateSelectors (emptyRoleObj.drop 1) = false := by decide

/- ===== src/modules/named_entity.py : extract_entities ===== -/

/-- spaCy entity labels distinguished by the mapping in extract_entities.
other stands for every label outside the table. -/
inductive EntLabel where
  | person | personage | org | organization | loc | gpe | location | other
deriving DecidableEq

/-- The categorized entity dictionary returned by extract_entities. -/
structure EntityBundle where
  persons : List (List Char)
  organizations : List (List Char)
  locations : List (List Char)
deriving DecidableEq

/-- The spaCy model as extract_entities consumes it: doc.ents as (span
text, label) pairs in document order; none models the model raising. -/
abbrev NlpModel := List Char → Option (List (List Char × EntLabel))

/-- Label table rows mapping to persons. -/
def isPersonLabel : EntLabel → Bool
  | .person => true
  | .personage => true
  | _ => false

/-- Label table rows mapping to organizations. -/
def isOrgLabel : EntLabel → Bool
  | .org => true
  | .organization => true
  | _ => false

/-- Label table rows mapping to locations. -/
def isLocLabel : EntLabel → Bool
  | .loc => true
  | .gpe => true
  | .location => true
  | _ => false

/-- doc.ents as seen by extract_entities after its `if not text` guard and
its try block: empty when the text is empty or the model raised. -/
def docEnts (nlp : NlpModel) (text : List Char) : List (List Char × EntLabel) :=
  if text = [] then []
  else match nlp text with
       | none => []
       | some ents => ents

/-- Entity spans collected into one category by the loop of
extract_entities, in document order, before deduplication. -/
def rawCategory (p : EntLabel → Bool) (nlp : NlpModel) (text : List Char) :
    List (List Char) :=
  (docEnts nlp text).filterMap (fun e => if p e.2 then some e.1 else none)

/-- extract_entities from named_entity.py: guard on empty text, run the
model (any exception yields all-empty categories), split spans by label
table, then deduplicate each category with list(dict.fromkeys(...)). -/
def extract_entities (nlp : NlpModel) (text : List Char) : EntityBundle :=
  if text = [] then ⟨[], [], []⟩
  else match nlp text with
       | none => ⟨[], [], []⟩
       | some ents =>
         { persons := pyDedup (ents.filterMap
             (fun e => if isPersonLabel e.2 then some e.1 else none))
         , organizations := pyDedup (ents.filterMap
             (fun e => if isOrgLabel e.2 then some e.1 else none))
         , locations := pyDedup (ents.filterMap
             (fun e => if isLocLabel e.2 then some e.1 else none)) }

/- ===== src/main.py and src/modules/bigquery_writer.py ===== -/

/-- Pipeline stages for the orchestration trace. enrichStage is the entity
enrichment stage of the specification; main.py has no call that would emit
it. -/
inductive Stage where
  | resolveStage | extractStage | enrichStage | annotateStage
  | reportStage | sinkStage
deriving DecidableEq

/-- Cell values of a pandas row, as serialized per record. -/
inductive Val where
  | vs : List Char → Val
  | vnat : Nat → Val
  | vq : ℚ → Val
  | vlist : List (List Char) → Val
deriving DecidableEq

/-- A record row: a Python dict from column name to value. -/
abbrev Row := List (List Char × Val)

/-- Row lookup (dict access / column membership). -/
def rlookup (k : List Char) : Row → Option Val
  | [] => none
  | (k2, v) :: rest => if k2 = k then some v else rlookup k rest

/-- One row of the DataFrame built by ArticlePostProcessor.process_articles:
the article fields plus title_word_count, title_char_count,
capitalized_words and title_complexity_score. -/
def processRow (a : Article) : Row :=
  [ (strL "title", .vs a.title)
  , (strL "kicker", .vs a.kicker)
  , (strL "link", .vs a.link)
  , (strL "image", .vs a.image)
  , (strL "date", .vs a.date)
  , (strL "title_word_count", .vnat (count_words a.title))
  , (strL "title_char_count", .vnat a.title.length)
  , (strL "capitalized_words", .vlist (find_capitalized_words a.title))
  , (strL "title_complexity_score", .vq (calculate_complexity_score a.title)) ]

/-- One row as BigQueryWriter.write_articles serializes it: the raw article
fields, a scrape timestamp, word and character counts and comma-joined
capitalized words recomputed by the writer itself, and the three entity
columns, which are filled with empty lists (the articles carry no entity
keys) and so serialize to empty strings. No complexity score column is
built. -/
def sinkRow (now : List Char) (a : Article) : Row :=
  [ (strL "title", .vs a.title)
  , (strL "kicker", .vs a.kicker)
  , (strL "link", .vs a.link)
  , (strL "image", .vs a.image)
  , (strL "date", .vs a.date)
  , (strL "scrape_timestamp", .vs now)
  , (strL "title_word_count", .vnat (count_words a.title))
  , (strL "title_char_count", .vnat a.title.length)
  , (strL "capitalized_words", .vs (List.intercalate [','] (find_capitalized_words a.title)))
  , (strL "persons", .vs [])
  , (strL "organizations", .vs [])
  , (strL "locations", .vs []) ]

/-- Inputs of one pipeline run: the fetched page (none when requests.get
raises), the remote-strategy client, the WRITE_TO_BIGQUERY switch and the
timestamp taken by the writer. -/
structure RunInput where
  fetch : Option Html
  client : Option (List Char → RemoteOutcome)
  writeToBQ : Bool
  now : List Char

/-- Articles produced by YogonetScraper.scrape_articles for a run: a
request failure yields the empty list; otherwise get_selectors resolves the
rules and the candidate loop extracts the records. -/
def scrapedArticles (inp : RunInput) : List Article :=
  match inp.fetch with
  | none => []
  | some html => scrape_articles none html.candidates

/-- Stages the scraping step performs: none on request failure, otherwise
selector resolution followed by extraction. -/
def scrapeEvents (inp : RunInput) : List Stage :=
  match inp.fetch with
  | none => []
  | some _ => [.resolveStage, .extractStage]

/-- Observable outcome of one run of main. -/
structure RunResult where
  articles : List Article
  warned : Bool
  processed : Option (List Row)
  sinkInput : Option (List Row)
  events : List Stage
deriving DecidableEq

/-- main from src/main.py: scrape, short-circuit with a warning when no
articles were scraped, otherwise post-process into the metrics DataFrame,
generate the summary report, and hand the RAW article list (not the
processed DataFrame) to BigQueryWriter.write_articles when WRITE_TO_BIGQUERY
is set. NamedEntityExtractor is never invoked anywhere in main.py. -/
def mainRun (inp : RunInput) : RunResult :=
  let articles := scrapedArticles inp
  if articles = [] then
    { articles := articles, warned := true, processed := none
    , sinkInput := none, events := scrapeEvents inp }
  else
    { articles := articles
    , warned := false
    , processed := some (articles.map processRow)
    , sinkInput := if inp.writeToBQ then some (articles.map (sinkRow inp.now)) else none
    , events := scrapeEvents inp ++ [.annotateStage, .reportStage]
        ++ (if inp.writeToBQ then [.sinkStage] else []) }

/- ===== helper lemmas ===== -/

theorem mem_pyDedupGo [DecidableEq α] {x : α} :
    ∀ {seen l : List α}, x ∈ pyDedupGo seen l → x ∈ l ∧ x ∉ seen := by
  intro seen l
  induction l generalizing seen with
  | nil => intro h; simp [pyDedupGo] at h
  | cons a l ih =>
    intro h
    by_cases ha : a ∈ seen
    · simp only [pyDedupGo, if_pos ha] at h
      obtain ⟨h1, h2⟩ := ih h
      exact ⟨List.mem_cons_of_mem _ h1, h2⟩
    · simp only [pyDedupGo, if_neg ha] at h
      rcases List.mem_cons.mp h with h | h
      · subst h; exact ⟨List.mem_cons_self _ _, ha⟩
      · obtain ⟨h1, h2⟩ := ih h
        refine ⟨List.mem_cons_of_mem _ h1, fun hx => h2 ?_⟩
        exact List.mem_cons_of_mem _ hx

theorem nodup_pyDedupGo [DecidableEq α] :
    ∀ (seen l : List α), (pyDedupGo seen l).Nodup := by
  intro seen l
  induction l generalizing seen with
  | nil => simp [pyDedupGo]
  | cons a l ih =>
    by_cases ha : a ∈ seen
    · simpa [pyDedupGo, if_pos ha] using ih seen
    · simp only [pyDedupGo, if_neg ha]
      refine List.nodup_cons.mpr ⟨fun hmem => ?_, ih (a :: seen)⟩
      exact (mem_pyDedupGo hmem).2 (List.mem_cons_self _ _)

theorem firstIdx_cons [DecidableEq α] (b : α) (l : List α) (a : α) :
    firstIdx (b :: l) a = if b = a then 0 else firstIdx l a + 1 := rfl

theorem pairwise_firstIdx_pyDedupGo [DecidableEq α] :
    ∀ (seen l : List α),
      (pyDedupGo seen l).Pairwise (fun x y => firstIdx l x < firstIdx l y) := by
  intro seen l
  induction l generalizing seen with
  | nil => simp [pyDedupGo]
  | cons a l ih =>
    by_cases ha : a ∈ seen
    · simp only [pyDedupGo, if_pos ha]
      refine List.Pairwise.imp_of_mem ?_ (ih seen)
      intro x y hx hy hxy
      have hxna : x ≠ a := fun h => (mem_pyDedupGo hx).2 (h ▸ ha)
      have hyna : y ≠ a := fun h => (mem_pyDedupGo hy).2 (h ▸ ha)
      rw [firstIdx_cons, firstIdx_cons, if_neg (fun h => hxna h.symm),
        if_neg (fun h => hyna h.symm)]
      omega
    · simp only [pyDedupGo, if_neg ha]
      refine List.pairwise_cons.mpr ⟨?_, ?_⟩
      · intro y hy
        have hyna : y ≠ a := fun h =>
          (mem_pyDedupGo hy).2 (h ▸ List.mem_cons_self a seen)
        rw [firstIdx_cons, firstIdx_cons, if_pos rfl,
          if_neg (fun h => hyna h.symm)]
        omega
      · refine List.Pairwise.imp_of_mem ?_ (ih (a :: seen))
        intro x y hx hy hxy
        have hxna : x ≠ a := fun h =>
          (mem_pyDedupGo hx).2 (h ▸ List.mem_cons_self a seen)
        have hyna : y ≠ a := fun h =>
          (mem_pyDedupGo hy).2 (h ▸ List.mem_cons_self a seen)
        rw [firstIdx_cons, firstIdx_cons, if_neg (fun h => hxna h.symm),
          if_neg (fun h => hyna h.symm)]
        omega

theorem pyDedup_nodup [DecidableEq α] (l : List α) : (pyDedup l).Nodup :=
  nodup_pyDedupGo [] l

theorem pyDedup_pairwise_firstIdx [DecidableEq α] (l : List α) :
    (pyDedup l).Pairwise (fun x y => firstIdx l x < firstIdx l y) :=
  pairwise_firstIdx_pyDedupGo [] l

theorem pyRound2_halfint (w c s : ℕ) :
    pyRound2 ((w : ℚ) * (1/2) + (c : ℚ) * (3/2) + (s : ℚ) * 2)
      = (w : ℚ) * (1/2) + (c : ℚ) * (3/2) + (s : ℚ) * 2 := by
  unfold pyRound2
  have h1 : ((w : ℚ) * (1/2) + (c : ℚ) * (3/2) + (s : ℚ) * 2) * 100
      = ((w * 50 + c * 150 + s * 200 : ℕ) : ℚ) := by push_cast; ring
  rw [h1, round_natCast]
  push_cast; ring

/- ===== claim theorems ===== -/

/-- C4: URL normalization is idempotent, and the relative link
/international/news/123 normalizes to
https://www.yogonet.com/international/news/123. -/
theorem normalizeUrl_idempotent (u : List Char) :
    normalizeUrl (normalizeUrl u) = normalizeUrl u
    ∧ normalizeUrl (strL "/international/news/123")
        = strL "https://www.yogonet.com/international/news/123" := by
  constructor
  · by_cases h : u ≠ [] ∧ ['/'].isPrefixOf u
    · have h1 : normalizeUrl u = siteOrigin ++ u := by rw [normalizeUrl, if_pos h]
      rw [h1, normalizeUrl, if_neg ?_]
      intro hc
      have hpre := hc.2
      simp [siteOrigin, List.isPrefixOf] at hpre
    · have h0 : normalizeUrl u = u := by rw [normalizeUrl, if_neg h]
      rw [h0, h0]
  · decide

/-- C3: a candidate is emitted only when both title and link resolve
(output count is at most candidate count); with title and link present, a
missing kicker yields the sentinel No kicker and a missing image yields the
empty string rather than a rejection. -/
theorem scrape_filtering (limit : Option Nat) (cs : List Candidate) (c : Candidate) :
    (scrape_articles limit cs).length ≤ cs.length
    ∧ (c.title = none ∨ c.link = none → extractArticle c = none)
    ∧ (∀ te le, c.title = some te → c.link = some le →
        ∃ a, extractArticle c = some a
          ∧ (c.kicker = none → a.kicker = strL "No kicker")
          ∧ (c.image = none → a.image = [])) := by
  refine ⟨?_, ?_, ?_⟩
  · cases limit with
    | none => simpa [scrape_articles] using List.length_filterMap_le extractArticle cs
    | some n =>
      have ht : (cs.take n).length ≤ cs.length := by
        rw [List.length_take]; exact min_le_right _ _
      simpa [scrape_articles] using
        le_trans (List.length_filterMap_le extractArticle (cs.take n)) ht
  · intro h
    rcases h with h | h
    · simp [extractArticle, h]
    · cases ht : c.title <;> simp [extractArticle, ht, h]
  · intro te le hte hle
    simp only [extractArticle, hte, hle]
    refine ⟨_, rfl, fun hk => ?_, fun hi => ?_⟩
    · simp [hk]
    · simp [hi, normalizeUrl]

/-- C3 witness: the candidate lacking a link is dropped and the candidate
lacking only a kicker is retained with the sentinel. -/
theorem scrape_filtering_witness :
    extractArticle candNoLink = none
    ∧ (extractArticle candNoKicker).map Article.kicker = some (strL "No kicker") := by
  constructor
  · exact (scrape_filtering none [] candNoLink).2.1 (Or.inr rfl)
  · obtain ⟨a, ha, hk, -⟩ := (scrape_filtering none [] candNoKicker).2.2 _ _ rfl rfl
    simp [ha, hk rfl]

/-- C10: a candidate whose title and link elements resolve but whose link
element has no href attribute is emitted with an empty link field. -/
theorem extract_missing_href (c : Candidate) (te le : Elem)
    (ht : c.title = some te) (hl : c.link = some le) (hh : le.href = none) :
    ∃ a, extractArticle c = some a ∧ a.link = [] := by
  simp only [extractArticle, ht, hl]
  exact ⟨_, rfl, by simp [hh, normalizeUrl]⟩

/-- C10 witness: the candidate whose anchor has no href is emitted with an
empty link. -/
theorem extract_missing_href_witness :
    (extractArticle candNoHref).map Article.link = some [] := by
  obtain ⟨a, ha, hl⟩ := extract_missing_href candNoHref _ _ rfl rfl rfl
  simp [ha, hl]

/-- C7: when no container matches the default container rule, get_selectors
returns the default selectors and never invokes the remote model. -/
theorem resolve_no_sample_default (client : Option (List Char → RemoteOutcome))
    (html : Html) (h : html.sampleArticle = none) :
    get_selectors client html = (defaultSelectors, false) := by
  cases client with
  | none => rfl
  | some q => simp [get_selectors, h]

/-- C7 witness: a page without the sample container resolves to the default
selectors without a remote call, even with a client available. -/
theorem resolve_no_sample_default_witness :
    get_selectors (some (fun _ => RemoteOutcome.raised)) ⟨none, []⟩
      = (defaultSelectors, false) :=
  resolve_no_sample_default _ _ rfl

/-- C2 counterexample: a remote response in which all five roles are
present as strings but article_container is the EMPTY string is accepted
and returned as-is; the claim asserts the default RuleSet is returned
instead. The code validates only presence and string type, not
non-emptiness. -/
theorem resolve_accepts_empty_role :
    (get_selectors (some (fun _ => RemoteOutcome.content (some emptyRoleObj)))
        ⟨some (strL "frag"), []⟩).1 = emptyRoleObj
    ∧ jlookup (strL "article_container") emptyRoleObj = some (.str [])
    ∧ (get_selectors (some (fun _ => RemoteOutcome.content (some emptyRoleObj)))
        ⟨some (strL "frag"), []⟩).1 ≠ defaultSelectors := by decide

/-- C2 (amended): get_selectors accepts a remote response exactly when it
parses as a mapping in which all five required roles are present as strings
(possibly empty); any call failure, parse failure, or missing or non-string
role yields the full built-in default selectors, and the returned mapping
is never partially filled: it is the full default or a mapping passing the
five-role validation. -/
theorem resolve_validation (q : List Char → RemoteOutcome) (html : Html)
    (frag : List Char) (hs : html.sampleArticle = some frag) :
    (q frag = .raised → get_selectors (some q) html = (defaultSelectors, true))
    ∧ (q frag = .content none →
        get_selectors (some q) html = (defaultSelectors, true))
    ∧ (∀ obj, q frag = .content (some obj) → validateSelectors obj = false →
        get_selectors (some q) html = (defaultSelectors, true))
    ∧ (∀ obj, q frag = .content (some obj) → validateSelectors obj = true →
        get_selectors (some q) html = (obj, true))
    ∧ (∀ client : Option (List Char → RemoteOutcome),
        (get_selectors client html).1 = defaultSelectors
        ∨ validateSelectors (get_selectors client html).1 = true) := by
  refine ⟨?_, ?_, ?_, ?_, ?_⟩
  · intro h; simp [get_selectors, hs, h]
  · intro h; simp [get_selectors, hs, h]
  · intro obj h hv; simp [get_selectors, hs, h, hv]
  · intro obj h hv; simp [get_selectors, hs, h, hv]
  · intro client
    cases client with
    | none => exact Or.inl rfl
    | some q2 =>
      simp only [get_selectors, hs]
      cases q2 frag with
      | raised => exact Or.inl rfl
      | content o =>
        cases o with
        | none => exact Or.inl rfl
        | some obj =>
          by_cases hv : validateSelectors obj = true
          · simp [hv]
          · simp [hv]

/-- C2 witness: a raising remote call falls back to the full default
selectors. -/
theorem resolve_validation_witness :
    get_selectors (some (fun _ => RemoteOutcome.raised)) ⟨some (strL "frag"), []⟩
      = (defaultSelectors, true) :=
  (resolve_validation (fun _ => RemoteOutcome.raised) ⟨some (strL "frag"), []⟩
    (strL "frag") rfl).1 rfl

/-- C5 counterexample: on the title Google Announces New AI Features the
regex of _find_capitalized_words yields Google, Announces, New, Features;
the all-caps token AI is not included (the trailing word boundary of the
pattern fails between two adjacent uppercase letters), so the claimed value
ending in AI is wrong. -/
theorem capitalized_words_drops_allcaps :
    find_capitalized_words (strL "Google Announces New AI Features")
      ≠ [strL "Google", strL "Announces", strL "New", strL "AI"]
    ∧ strL "AI" ∉ find_capitalized_words (strL "Google Announces New AI Features")
    ∧ strL "A" ∉ find_capitalized_words (strL "Google Announces New AI Features") := by
  decide

/-- C5 (amended): for the title Google Announces New AI Features,
capitalized_words equals Google, Announces, New, Features in order of
appearance; the all-caps token AI is excluded because the pattern carries a
closing word boundary that fails inside a run of uppercase letters. -/
theorem capitalized_words_scenario :
    find_capitalized_words (strL "Google Announces New AI Features")
      = [strL "Google", strL "Announces", strL "New", strL "Features"] := by
  decide

/-- C6 counterexample: on the title consisting of a single underscore the
code scores round(1 * 0.5 + 0 * 1.5 + 0 * 2, 2) = 0.5, while the claimed
formula (special characters = neither alphanumeric nor whitespace, which
counts the underscore) yields 2.5: the code counts special characters with
the class excluding word characters, and the underscore is a word
character. -/
theorem complexity_score_underscore :
    calculate_complexity_score (strL "_") = 1/2
    ∧ complexityScoreClaimed (strL "_") = 5/2
    ∧ calculate_complexity_score (strL "_") ≠ complexityScoreClaimed (strL "_") := by
  have h1 : calculate_complexity_score (strL "_") = 1/2 := by
    unfold calculate_complexity_score
    rw [show count_words (strL "_") = 1 from by decide,
      show (find_capitalized_words (strL "_")).length = 0 from by decide,
      show specialCount (strL "_") = 0 from by decide, pyRound2_halfint]
    norm_num
  have h2 : complexityScoreClaimed (strL "_") = 5/2 := by
    unfold complexityScoreClaimed
    rw [show count_words (strL "_") = 1 from by decide,
      show (find_capitalized_words (strL "_")).length = 0 from by decide,
      show specialCountClaimed (strL "_") = 1 from by decide, pyRound2_halfint]
    norm_num
  exact ⟨h1, h2, by rw [h1, h2]; norm_num⟩

/-- C6 (amended): the complexity score equals 0.5 times the word count
plus 1.5 times the capitalized-word count plus 2 times the count of
characters that are neither alphanumeric, nor the underscore, nor
whitespace, rounded to two decimal places; moreover the rounding never
changes the value, since the unrounded score is always an integer multiple
of one half. -/
theorem complexity_score_formula (text : List Char) :
    calculate_complexity_score text
      = pyRound2 ((count_words text : ℚ) * (1/2)
          + ((find_capitalized_words text).length : ℚ) * (3/2)
          + ((text.countP (fun c => !(c.isAlphanum || c = '_')
              && !isSpaceChar c)) : ℚ) * 2)
    ∧ calculate_complexity_score text
      = (count_words text : ℚ) * (1/2)
        + ((find_capitalized_words text).length : ℚ) * (3/2)
        + (specialCount text : ℚ) * 2 := by
  exact ⟨rfl, pyRound2_halfint _ _ _⟩

/-- C8 structural reading of extract_entities: each category is the
deduplication of the label-filtered span sequence. -/
theorem extract_entities_eq (nlp : NlpModel) (text : List Char) :
    extract_entities nlp text
      = ⟨pyDedup (rawCategory isPersonLabel nlp text)
        , pyDedup (rawCategory isOrgLabel nlp text)
        , pyDedup (rawCategory isLocLabel nlp text)⟩ := by
  unfold extract_entities rawCategory docEnts
  by_cases h : text = []
  · simp [h, pyDedup, pyDedupGo]
  · simp only [h, if_neg]
    cases nlp text <;> simp [pyDedup, pyDedupGo]

/-- C8: every entity category is free of duplicates and ordered by first
appearance in the model output (which spaCy yields in document order), and
a model failure yields the all-empty bundle instead of an error. -/
theorem entities_dedup_ordered (nlp : NlpModel) (text : List Char) :
    (extract_entities nlp text).persons.Nodup
    ∧ (extract_entities nlp text).organizations.Nodup
    ∧ (extract_entities nlp text).locations.Nodup
    ∧ (extract_entities nlp text).persons.Pairwise
        (fun x y => firstIdx (rawCategory isPersonLabel nlp text) x
          < firstIdx (rawCategory isPersonLabel nlp text) y)
    ∧ (extract_entities nlp text).organizations.Pairwise
        (fun x y => firstIdx (rawCategory isOrgLabel nlp text) x
          < firstIdx (rawCategory isOrgLabel nlp text) y)
    ∧ (extract_entities nlp text).locations.Pairwise
        (fun x y => firstIdx (rawCategory isLocLabel nlp text) x
          < firstIdx (rawCategory isLocLabel nlp text) y)
    ∧ (nlp text = none → extract_entities nlp text = ⟨[], [], []⟩) := by
  rw [extract_entities_eq]
  refine ⟨pyDedup_nodup _, pyDedup_nodup _, pyDedup_nodup _,
    pyDedup_pairwise_firstIdx _, pyDedup_pairwise_firstIdx _,
    pyDedup_pairwise_firstIdx _, ?_⟩
  intro h
  by_cases ht : text = [] <;> simp [rawCategory, docEnts, ht, h, pyDedup, pyDedupGo]

/-- C8 witness: a raising model on a nonempty text yields the all-empty
bundle, and a concrete entity sequence with a repeated person is
deduplicated. -/
theorem entities_dedup_ordered_witness :
    extract_entities (fun _ => none) (strL "x") = ⟨[], [], []⟩
    ∧ (extract_entities
        (fun _ => some [(strL "Ada", .person), (strL "Intel", .org),
          (strL "Ada", .person)]) (strL "x")).persons.Nodup := by
  constructor
  · exact (entities_dedup_ordered (fun _ => none) (strL "x")).2.2.2.2.2.2 rfl
  · exact (entities_dedup_ordered _ (strL "x")).1

/-- The article extracted from candFull. -/
def articleFull : Article :=
  { title := strL "Title"
  , kicker := strL "Kick"
  , link := strL "https://www.yogonet.com/international/news/123"
  , image := strL "https://www.yogonet.com/img.png"
  , date := strL "No date" }

/-- A run whose page holds one well-formed candidate, with no remote
client and the BigQuery write enabled. -/
def inp0 : RunInput := ⟨some ⟨none, [candFull]⟩, none, true, strL "t0"⟩

example : extractArticle candFull = some articleFull := by decide

/-- C9: when scraping yields zero articles, main warns, builds no processed
DataFrame, performs no annotation, enrichment or report stage, and never
invokes the Sink. -/
theorem main_empty_warns (inp : RunInput) (h : scrapedArticles inp = []) :
    (mainRun inp).warned = true
    ∧ (mainRun inp).processed = none
    ∧ (mainRun inp).sinkInput = none
    ∧ Stage.annotateStage ∉ (mainRun inp).events
    ∧ Stage.enrichStage ∉ (mainRun inp).events
    ∧ Stage.sinkStage ∉ (mainRun inp).events := by
  have he : (mainRun inp).events = scrapeEvents inp := by simp [mainRun, h]
  have hmem : Stage.annotateStage ∉ scrapeEvents inp
      ∧ Stage.enrichStage ∉ scrapeEvents inp
      ∧ Stage.sinkStage ∉ scrapeEvents inp := by
    cases hf : inp.fetch <;> simp [scrapeEvents, hf]
  refine ⟨by simp [mainRun, h], by simp [mainRun, h], by simp [mainRun, h],
    ?_, ?_, ?_⟩ <;> rw [he]
  · exact hmem.1
  · exact hmem.2.1
  · exact hmem.2.2

/-- C9 witness: a run whose page fetch fails warns and never invokes the
Sink. -/
theorem main_empty_warns_witness :
    (mainRun ⟨none, none, true, []⟩).warned = true
    ∧ (mainRun ⟨none, none, true, []⟩).sinkInput = none := by
  have hm := main_empty_warns ⟨none, none, true, []⟩ rfl
  exact ⟨hm.1, hm.2.2.1⟩

/-- C1 counterexample: in a concrete run the rows handed to the Sink are
the raw articles augmented by the writer itself; they carry no
title_complexity_score column (although the annotation stage computed one)
and their entity columns are the constant empty string, not the output of
an enrichment stage — main.py never invokes NamedEntityExtractor and hands
write_articles the raw article list, not the processed DataFrame. -/
theorem main_sink_lacks_enrichment :
    (mainRun inp0).sinkInput = some [sinkRow (strL "t0") articleFull]
    ∧ rlookup (strL "title_complexity_score") (sinkRow (strL "t0") articleFull) = none
    ∧ rlookup (strL "title_complexity_score") (processRow articleFull) ≠ none
    ∧ rlookup (strL "persons") (sinkRow (strL "t0") articleFull) = some (.vs []) := by
  refine ⟨by decide, by decide, ?_, by decide⟩
  intro hc
  simp [processRow, rlookup, strL] at hc

/-- C1 (amended): for every run with at least one scraped article and the
BigQuery write enabled, the orchestrator performs resolve, extract,
annotate, report and sink in that order and never an enrichment stage; the
annotation output is the processed DataFrame, but the rows handed to the
Sink are the raw articles augmented by the writer (timestamp, recomputed
counts, comma-joined capitalized words, empty entity columns), and no row
handed to the Sink carries the title_complexity_score computed by the
annotation stage. -/
theorem main_pipeline_order (inp : RunInput)
    (h : scrapedArticles inp ≠ []) (hbq : inp.writeToBQ = true) :
    (mainRun inp).events = [Stage.resolveStage, Stage.extractStage,
      Stage.annotateStage, Stage.reportStage, Stage.sinkStage]
    ∧ (mainRun inp).processed = some ((scrapedArticles inp).map processRow)
    ∧ (mainRun inp).sinkInput = some ((scrapedArticles inp).map (sinkRow inp.now))
    ∧ Stage.enrichStage ∉ (mainRun inp).events
    ∧ ∀ r ∈ (scrapedArticles inp).map (sinkRow inp.now),
        rlookup (strL "title_complexity_score") r = none := by
  have hev : scrapeEvents inp = [Stage.resolveStage, Stage.extractStage] := by
    cases hf : inp.fetch with
    | none => exact absurd (by simp [scrapedArticles, hf]) h
    | some html => simp [scrapeEvents, hf]
  have he : (mainRun inp).events = [Stage.resolveStage, Stage.extractStage,
      Stage.annotateStage, Stage.reportStage, Stage.sinkStage] := by
    simp [mainRun, h, hbq, hev]
  refine ⟨he, by simp [mainRun, h], by simp [mainRun, h, hbq], ?_, ?_⟩
  · rw [he]; decide
  · intro r hr
    obtain ⟨a, -, rfl⟩ := List.mem_map.mp hr
    rfl

/-- C1 witness: the concrete run performs the five stages in order with no
enrichment stage. -/
theorem main_pipeline_order_witness :
    (mainRun inp0).events = [Stage.resolveStage, Stage.extractStage,
      Stage.annotateStage, Stage.reportStage, Stage.sinkStage]
    ∧ Stage.enrichStage ∉ (mainRun inp0).events := by
  have hm := main_pipeline_order inp0 (by decide) rfl
  exact ⟨hm.1, hm.2.2.2.1⟩
